import Mathlib

/-!
Verification development for the L&G upload tool (src/app.py).

The file embeds the data model and the operations of `app.py` as Lean
definitions and proves the specified properties about them:

* `SHEET_CONFIG` (app.py lines 14-18): the schema registry.
* `normalize` (app.py lines 110-113): the inline row-normalization loop
  `[str(r.get(h, "")) for h in headers]` applied to every raw row.
* `processFile` / `processBatch` (app.py lines 96-124): the per-file
  extraction loop with its per-file `try/except`.
* `publishItem` / `publishLoop` / `publishPhase` (app.py lines 135-154):
  the publish loop with its single surrounding `try/except`.
* `init_models` / `get_gspread_client` (app.py lines 20-41): credential
  resolution.

JSON scalar values are modelled by `Value`; Python's `str()` on them by
`pyStr` (`str(None) = "None"`, `str(True) = "True"`, `str(5) = "5"`).
Python dicts are modelled as association lists looked up by first match.
-/

namespace LG

/-- A JSON scalar value as it appears in the AI response. -/
inductive Value where
  | s (v : String)
  | n (v : Int)
  | b (v : Bool)
  | null
deriving DecidableEq, Repr

/-- Python's `str()` on a `Value`: strings pass through, `None` renders as
`"None"`, booleans as `"True"`/`"False"`, integers in decimal. -/
def pyStr : Value → String
  | .s v => v
  | .n v => toString v
  | .b true => "True"
  | .b false => "False"
  | .null => "None"

/-- Whether a `Value` is a JSON string. -/
def Value.isStr : Value → Bool
  | .s _ => true
  | _ => false

/-- A raw row of the AI response: a mapping from column names to values,
modelled as an association list (Python dict keys are unique; lookup is
first match). -/
abbrev RawRow := List (String × Value)

/-- `r.get(h)`: the value stored under key `h`, if any. -/
def rawGet (r : RawRow) (h : String) : Option Value :=
  (r.find? (fun p => p.1 == h)).map (fun p => p.2)

/-- One cell of normalization, app.py line 112: `str(r.get(h, ""))`. -/
def normCell (r : RawRow) (h : String) : String :=
  pyStr ((rawGet r h).getD (.s ""))

/-- One normalized row, app.py line 112: `[str(r.get(h, "")) for h in headers]`. -/
def normRow (r : RawRow) (headers : List String) : List String :=
  headers.map (normCell r)

/-- Row normalization, app.py lines 110-113: every raw row becomes a
fixed-width string row aligned to the schema's column order. -/
def normalize (raw_rows : List RawRow) (headers : List String) : List (List String) :=
  raw_rows.map (fun r => normRow r headers)

/-- `SHEET_CONFIG`, app.py lines 14-18: document-type tag to
(worksheet name, ordered column list). -/
def SHEET_CONFIG : List (String × String × List String) :=
  [("factura", ("Facturas", ["Fecha", "Proveedor", "CUIT", "Nro Factura",
      "Producto/Servicio", "Cantidad", "Precio Unitario Neto", "IVA %",
      "Subtotal c/IVA", "Total Factura"])),
   ("orden_compra", ("Orden de compra", ["Fecha", "Proveedor", "Nro OC",
      "Detalle", "Monto Total", "Condición de Pago"])),
   ("orden_pago", ("Orden de pago", ["Fecha", "Proveedor", "Nro OP",
      "Facturas Canceladas", "Importe Bruto", "Retenciones", "Neto Pagado",
      "Medio de Pago"]))]

/-- `SHEET_CONFIG[doc_type]` together with the `doc_type in SHEET_CONFIG`
membership test: `some` exactly when the tag is a key of the registry. -/
def sheetConfigGet (t : String) : Option (String × List String) :=
  (SHEET_CONFIG.find? (fun p => p.1 == t)).map (fun p => p.2)

/-- A user-visible Streamlit message (`st.warning` / `st.error` / `st.success`). -/
inductive Msg where
  | warning (text : String)
  | error (text : String)
  | success (text : String)
deriving DecidableEq, Repr

/-- The parsed JSON object returned by `call_ai` when the call and
`json.loads` succeed: `raw_data.get("document_type")` and
`raw_data.get("rows", [])` are the only accesses the code makes. -/
structure RawData where
  document_type : Option String
  rows : Option (List RawRow)
deriving DecidableEq, Repr

/-- One uploaded file: its name together with the outcome of
`call_ai(model, content, file.name)` - either the parsed JSON object or
the exception message raised by the network call or `json.loads`. -/
structure UploadedFile where
  name : String
  ai : Except String RawData

/-- One entry of `st.session_state["extractions"]` (the Review Store),
app.py lines 115-120. -/
structure ReviewItem where
  sheet : String
  headers : List String
  rows : List (List String)
  file : String
deriving DecidableEq, Repr

/-- Processing of a single uploaded file, app.py lines 96-122: the body of
the `for file in uploaded_files` loop with its `try/except`.  Returns the
`ReviewItem` appended to `results` (if any) and the messages shown. -/
def processFile (f : UploadedFile) : Option ReviewItem × List Msg :=
  match f.ai with
  | .error e => (none, [.error ("Error en " ++ f.name ++ ": " ++ e)])
  | .ok raw =>
    match raw.document_type.bind sheetConfigGet with
    | none => (none, [.warning ("No se reconoció el tipo de documento en " ++ f.name)])
    | some (sheet_name, headers) =>
      (some ⟨sheet_name, headers, normalize (raw.rows.getD []) headers, f.name⟩, [])

/-- The whole extraction batch, app.py lines 94-124: files processed
strictly in order; `st.session_state["extractions"]` is set to the first
component afterwards. -/
def processBatch : List UploadedFile → List ReviewItem × List Msg
  | [] => ([], [])
  | f :: rest =>
    ((processFile f).1.toList ++ (processBatch rest).1,
     (processFile f).2 ++ (processBatch rest).2)

/-- The remote spreadsheet: worksheet name to its current list of value
rows.  A name that is absent models `sh.worksheet(name)` raising
`WorksheetNotFound` (gspread does not auto-create worksheets). -/
abbrev Sheets := List (String × List (List String))

/-- `sh.worksheet(name)` resolution: the worksheet's current values, or
`none` when the spreadsheet has no worksheet of that name. -/
def wsLookup (sh : Sheets) (name : String) : Option (List (List String)) :=
  (sh.find? (fun p => p.1 == name)).map (fun p => p.2)

/-- Replace the values of the named worksheet. -/
def wsUpdate (sh : Sheets) (name : String) (vals : List (List String)) : Sheets :=
  sh.map (fun p => if p.1 == name then (p.1, vals) else p)

/-- One observable append call against the spreadsheet service:
`ws.append_row(headers)` (no `value_input_option`) or
`ws.append_rows(rows, value_input_option="USER_ENTERED")`. -/
structure AppendOp where
  sheet : String
  values : List (List String)
  value_input_option : Option String
deriving DecidableEq, Repr

/-- Publishing one `ReviewItem`, app.py lines 142-147: resolve the
worksheet (error if missing), write the header row exactly when
`ws.get_all_values()` is empty, then append the item's rows in order with
`value_input_option="USER_ENTERED"`. -/
def publishItem (sh : Sheets) (item : ReviewItem) : Except String (Sheets × List AppendOp) :=
  match wsLookup sh item.sheet with
  | none => .error ("WorksheetNotFound: " ++ item.sheet)
  | some vals =>
    let headerOps : List AppendOp :=
      if vals.isEmpty then [⟨item.sheet, [item.headers], none⟩] else []
    let vals1 := if vals.isEmpty then vals ++ [item.headers] else vals
    .ok (wsUpdate sh item.sheet (vals1 ++ item.rows),
         headerOps ++ [⟨item.sheet, item.rows, some "USER_ENTERED"⟩])

/-- The publish loop over the Review Store, app.py lines 141-148: items in
store order; the first error stops the loop (the surrounding `try` has no
per-item isolation).  Returns the spreadsheet as mutated so far, the
append calls made so far, and the first error, if any. -/
def publishLoop (sh : Sheets) (items : List ReviewItem) : Sheets × List AppendOp × Option String :=
  match items with
  | [] => (sh, [], none)
  | item :: rest =>
    match publishItem sh item with
    | .error e => (sh, [], some e)
    | .ok (sh', ops) =>
      let (sh'', ops', err) := publishLoop sh' rest
      (sh'', ops ++ ops', err)

/-- The publish click, app.py lines 127 and 135-154: shown only when the
Review Store is non-empty; does nothing at all when `get_gspread_client()`
returned `None` (the `if client:` has no `else`); otherwise runs the loop
inside one `try/except`, clearing the store and reporting success only
when every item published, and on error leaving the store as it was and
showing `st.error`.  Returns (store, spreadsheet, messages, append calls). -/
def publishPhase (store : List ReviewItem) (client : Option Unit) (sh : Sheets) :
    List ReviewItem × Sheets × List Msg × List AppendOp :=
  if store.isEmpty then (store, sh, [], [])
  else
    match client with
    | none => (store, sh, [], [])
    | some _ =>
      match publishLoop sh store with
      | (sh', ops, some e) => (store, sh', [.error ("Error al subir: " ++ e)], ops)
      | (sh', ops, none) => ([], sh', [.success "¡Datos cargados con éxito!"], ops)

/-- `st.secrets.get(key)`: the configured secrets as an association list. -/
def secretsGet (secrets : List (String × String)) (k : String) : Option String :=
  (secrets.find? (fun p => p.1 == k)).map (fun p => p.2)

/-- `init_models`, app.py lines 20-30: when `GOOGLE_API_KEY` is absent or
empty (Python falsy), `st.error("Falta GOOGLE_API_KEY")` followed by
`st.stop()` - modelled as `Except.error` carrying the shown message;
otherwise the configured model (its handle modelled as `Unit`). -/
def init_models (secrets : List (String × String)) : Except String Unit :=
  match secretsGet secrets "GOOGLE_API_KEY" with
  | none => .error "Falta GOOGLE_API_KEY"
  | some key => if key = "" then .error "Falta GOOGLE_API_KEY" else .ok ()

/-- `get_gspread_client`, app.py lines 32-41: a client when
`service_account.json` exists or `gcp_service_account` is in the secrets,
and `None` otherwise. -/
def get_gspread_client (service_account_file_found : Bool)
    (secrets_have_gcp_service_account : Bool) : Option Unit :=
  if service_account_file_found then some ()
  else if secrets_have_gcp_service_account then some ()
  else none

/-- C1: for every sequence of raw rows and every schema column list,
`normalize` returns one output row per raw row; each output row's length
equals the number of columns; position `i` holds the string form of the raw
row's value for column `i`, or `""` if that key is absent; and the output
depends only on the raw row's values at the schema's keys (extra keys are
dropped).  `normalize` is a total function, so it never fails. -/
theorem normalize_shape (raw_rows : List RawRow) (headers : List String) :
    (normalize raw_rows headers).length = raw_rows.length ∧
    (∀ out ∈ normalize raw_rows headers, out.length = headers.length) ∧
    (∀ r : RawRow, ∀ i : Nat, ∀ hi : i < headers.length,
      (normRow r headers).get ⟨i, by simp [normRow, hi]⟩ =
        (match rawGet r (headers.get ⟨i, hi⟩) with
         | some v => pyStr v
         | none => "")) ∧
    (∀ r r' : RawRow, (∀ h ∈ headers, rawGet r h = rawGet r' h) →
      normRow r headers = normRow r' headers) := by
  refine ⟨List.length_map _ _, ?_, ?_, ?_⟩
  · intro out hout
    simp only [normalize, List.mem_map] at hout
    obtain ⟨r, _, rfl⟩ := hout
    simp [normRow]
  · intro r i hi
    simp only [normRow, List.get_eq_getElem, List.getElem_map]
    rcases hv : rawGet r headers[i] with _ | v
    · simp [normCell, hv, pyStr]
    · simp [normCell, hv]
  · intro r r' hagree
    simp only [normRow]
    exact List.map_congr_left (fun h hh => by simp [normCell, hagree h hh])

/-- Witness for C1: the dropped-extra-key clause at a concrete input - the
extra key `"X"` does not change the normalized row. -/
theorem normalize_shape_witness :
    normRow [("X", Value.s "junk"), ("Fecha", Value.s "f")] ["Fecha"] =
      normRow [("Fecha", Value.s "f")] ["Fecha"] :=
  (normalize_shape [] ["Fecha"]).2.2.2
    [("X", Value.s "junk"), ("Fecha", Value.s "f")] [("Fecha", Value.s "f")]
    (by decide)

/-- A lookup under a key different from the head's skips the head entry. -/
theorem rawGet_cons_ne (h : String) (v : Value) (r : RawRow) (h' : String)
    (hne : h ≠ h') : rawGet ((h, v) :: r) h' = rawGet r h' := by
  simp [rawGet, List.find?_cons, hne]

/-- Normalizing the row that sends each column of a duplicate-free column
list to a given value recovers exactly the `pyStr` images of the values. -/
theorem normRow_zip : ∀ hs : List String, hs.Nodup → ∀ vs : List Value,
    vs.length = hs.length → normRow (hs.zip vs) hs = vs.map pyStr := by
  intro hs
  induction hs with
  | nil =>
    intro _ vs hlen
    have hv : vs = [] := List.length_eq_zero.mp (by simpa using hlen)
    subst hv
    rfl
  | cons h t ih =>
    intro hnd vs hlen
    cases vs with
    | nil => simp at hlen
    | cons v vt =>
      simp only [List.zip_cons_cons, normRow, List.map_cons]
      have hhead : normCell ((h, v) :: t.zip vt) h = pyStr v := by
        simp [normCell, rawGet, List.find?_cons]
      have hnotin : h ∉ t := (List.nodup_cons.mp hnd).1
      have htail : t.map (normCell ((h, v) :: t.zip vt)) = t.map (normCell (t.zip vt)) :=
        List.map_congr_left (fun h' hh' => by
          simp [normCell, rawGet_cons_ne h v (t.zip vt) h' (fun he => hnotin (he ▸ hh'))])
      rw [hhead, htail]
      have := ih (List.nodup_cons.mp hnd).2 vt (by simpa using hlen)
      simp only [normRow] at this
      rw [this]

/-- C8: normalization is idempotent - for every duplicate-free schema
column list and every already-normalized set of rows (each row a mapping
sending each column name to its own string value), `normalize` returns
the same rows unchanged. -/
theorem normalize_idempotent (headers : List String) (hnd : headers.Nodup)
    (vals : List (List String)) (hlen : ∀ v ∈ vals, v.length = headers.length) :
    normalize (vals.map (fun v => headers.zip (v.map Value.s))) headers = vals := by
  unfold normalize
  rw [List.map_map]
  have hid : ∀ v ∈ vals, normRow (headers.zip (v.map Value.s)) headers = v := by
    intro v hv
    rw [normRow_zip headers hnd (v.map Value.s) (by simp [hlen v hv]),
      List.map_map]
    exact List.map_congr_left (fun x _ => rfl) |>.trans (List.map_id v)
  calc vals.map (fun v => normRow (headers.zip (v.map Value.s)) headers)
      = vals.map id := List.map_congr_left hid
    _ = vals := List.map_id vals

/-- Witness for C8: a concrete already-normalized batch is unchanged. -/
theorem normalize_idempotent_witness :
    normalize [[("a", Value.s "1"), ("b", Value.s "2")]] ["a", "b"] = [["1", "2"]] :=
  normalize_idempotent ["a", "b"] (by decide) [["1", "2"]] (by decide)

/-- C10: only an absent key yields `""`; a present value is rendered by
Python's `str()`, so a present JSON `null` gives `"None"` (never `""`),
the number `5` gives `"5"`, and `true` gives `"True"`; `str()` of the
non-string scalars named by the claim is never the empty string. -/
theorem normCell_pyStr_semantics (r : RawRow) (h : String) :
    (rawGet r h = none → normCell r h = "") ∧
    (∀ v : Value, rawGet r h = some v → normCell r h = pyStr v) ∧
    (rawGet r h = some Value.null → normCell r h = "None") ∧
    pyStr Value.null = "None" ∧ pyStr (Value.n 5) = "5" ∧
    pyStr (Value.b true) = "True" ∧
    (∀ b : Bool, pyStr (Value.b b) ≠ "") ∧ pyStr Value.null ≠ "" ∧
    pyStr (Value.n 5) ≠ "" := by
  refine ⟨?_, ?_, ?_, rfl, by decide, rfl, ?_, by decide, by decide⟩
  · intro hv; simp [normCell, hv, pyStr]
  · intro v hv; simp [normCell, hv]
  · intro hv; simp [normCell, hv, pyStr]
  · intro b; cases b <;> simp [pyStr]

/-- Witness for C10: a present `null` renders as `"None"`, not `""`. -/
theorem normCell_pyStr_semantics_witness :
    normCell [("k", Value.null)] "k" = "None" :=
  (normCell_pyStr_semantics [("k", Value.null)] "k").2.2.1 (by decide)

/-- C9: a recognized document type with no `"rows"` key raises no error
and emits no message: a `ReviewItem` is still created, with the schema's
sheet and headers and an empty rows list. -/
theorem missing_rows_key (name t s : String) (hs : List String)
    (hcfg : sheetConfigGet t = some (s, hs)) :
    processFile ⟨name, Except.ok ⟨some t, none⟩⟩ = (some ⟨s, hs, [], name⟩, []) := by
  simp [processFile, hcfg, normalize]

/-- Witness for C9: a `"orden_compra"` response without `"rows"`. -/
theorem missing_rows_key_witness :
    processFile ⟨"a.pdf", Except.ok ⟨some "orden_compra", none⟩⟩ =
      (some ⟨"Orden de compra",
             ["Fecha", "Proveedor", "Nro OC", "Detalle", "Monto Total",
              "Condición de Pago"], [], "a.pdf"⟩, []) :=
  missing_rows_key "a.pdf" "orden_compra" _ _ (by decide)

/-- The batch splits over list append: files are processed independently
and their items and messages concatenate in order. -/
theorem processBatch_append (xs ys : List UploadedFile) :
    processBatch (xs ++ ys) =
      ((processBatch xs).1 ++ (processBatch ys).1,
       (processBatch xs).2 ++ (processBatch ys).2) := by
  induction xs with
  | nil => simp [processBatch]
  | cons f rest ih => simp [processBatch, ih]

/-- The Review Store after a batch holds exactly the per-file successes,
in batch order. -/
theorem processBatch_items (files : List UploadedFile) :
    (processBatch files).1 = files.filterMap (fun g => (processFile g).1) := by
  induction files with
  | nil => rfl
  | cons f rest ih =>
    simp only [processBatch, List.filterMap_cons]
    cases hg : (processFile f).1 <;> simp [ih, hg]

/-- C4: a failure while extracting one file (exception from the AI call or
JSON parsing) is caught for that file alone and reported with that file's
name; the remaining files are still processed, and after the batch the
Review Store holds exactly the items of the files that succeeded, in
batch order. -/
theorem extract_failure_isolated (pre post : List UploadedFile) (name e : String) :
    processFile ⟨name, Except.error e⟩ =
      (none, [Msg.error ("Error en " ++ name ++ ": " ++ e)]) ∧
    processBatch (pre ++ ⟨name, Except.error e⟩ :: post) =
      ((processBatch pre).1 ++ (processBatch post).1,
       (processBatch pre).2 ++ Msg.error ("Error en " ++ name ++ ": " ++ e) ::
         (processBatch post).2) ∧
    ∀ files : List UploadedFile,
      (processBatch files).1 = files.filterMap (fun g => (processFile g).1) := by
  refine ⟨rfl, ?_, processBatch_items⟩
  rw [show pre ++ (⟨name, Except.error e⟩ : UploadedFile) :: post
        = (pre ++ [⟨name, Except.error e⟩]) ++ post from by simp,
    processBatch_append, processBatch_append]
  simp [processBatch, processFile]

/-- C5: a file whose extracted `document_type` is not a key of
`SHEET_CONFIG` contributes zero `ReviewItem`s and exactly one warning,
and the remaining files of the batch are still processed; no partial or
default schema is ever used (the file is skipped entirely). -/
theorem unrecognized_doc_type (pre post : List UploadedFile) (name t : String)
    (rows : Option (List RawRow)) (hun : sheetConfigGet t = none) :
    processFile ⟨name, Except.ok ⟨some t, rows⟩⟩ =
      (none, [Msg.warning ("No se reconoció el tipo de documento en " ++ name)]) ∧
    processBatch (pre ++ ⟨name, Except.ok ⟨some t, rows⟩⟩ :: post) =
      ((processBatch pre).1 ++ (processBatch post).1,
       (processBatch pre).2 ++
         Msg.warning ("No se reconoció el tipo de documento en " ++ name) ::
           (processBatch post).2) := by
  have h1 : processFile ⟨name, Except.ok ⟨some t, rows⟩⟩ =
      (none, [Msg.warning ("No se reconoció el tipo de documento en " ++ name)]) := by
    simp [processFile, hun]
  refine ⟨h1, ?_⟩
  rw [show pre ++ (⟨name, Except.ok ⟨some t, rows⟩⟩ : UploadedFile) :: post
        = (pre ++ [⟨name, Except.ok ⟨some t, rows⟩⟩]) ++ post from by simp,
    processBatch_append, processBatch_append]
  simp [processBatch, h1]

/-- Witness for C5: `"recibo"` among `[a.pdf, b.pdf, c.pdf]` - the store
gets the items of `a.pdf` and `c.pdf` only, with one warning for `b.pdf`. -/
theorem unrecognized_doc_type_witness :
    processBatch
        [⟨"a.pdf", Except.ok ⟨some "orden_compra", some [[("Fecha", Value.s "1")]]⟩⟩,
         ⟨"b.pdf", Except.ok ⟨some "recibo", none⟩⟩,
         ⟨"c.pdf", Except.ok ⟨some "orden_pago", none⟩⟩] =
      ([⟨"Orden de compra",
          ["Fecha", "Proveedor", "Nro OC", "Detalle", "Monto Total",
           "Condición de Pago"], [["1", "", "", "", "", ""]], "a.pdf"⟩,
        ⟨"Orden de pago",
          ["Fecha", "Proveedor", "Nro OP", "Facturas Canceladas",
           "Importe Bruto", "Retenciones", "Neto Pagado", "Medio de Pago"],
          [], "c.pdf"⟩],
       [Msg.warning "No se reconoció el tipo de documento en b.pdf"]) := by
  have h := (unrecognized_doc_type
    [⟨"a.pdf", Except.ok ⟨some "orden_compra", some [[("Fecha", Value.s "1")]]⟩⟩]
    [⟨"c.pdf", Except.ok ⟨some "orden_pago", none⟩⟩]
    "b.pdf" "recibo" none (by decide)).2
  exact h.trans (by decide)

/-- The publish loop stops at the first failing item: whatever was
published before it stays, and the items after it are never attempted. -/
theorem publishLoop_append_abort (sh : Sheets) (xs : List ReviewItem)
    (y : ReviewItem) (ys : List ReviewItem) (sh₁ : Sheets)
    (ops₁ : List AppendOp) (e : String)
    (hxs : publishLoop sh xs = (sh₁, ops₁, none))
    (hy : publishItem sh₁ y = Except.error e) :
    publishLoop sh (xs ++ y :: ys) = (sh₁, ops₁, some e) := by
  induction xs generalizing sh ops₁ with
  | nil =>
    simp only [publishLoop, Prod.mk.injEq] at hxs
    obtain ⟨rfl, rfl, -⟩ := hxs
    simp [publishLoop, hy]
  | cons a rest ih =>
    rcases ha : publishItem sh a with e' | ⟨sh', ops⟩
    · rw [publishLoop, ha] at hxs
      simp at hxs
    · rcases hrec : publishLoop sh' rest with ⟨sh₂, ops₂, err₂⟩
      rw [publishLoop, ha] at hxs
      simp only [hrec, Prod.mk.injEq] at hxs
      obtain ⟨rfl, rfl, herr⟩ := hxs
      have hrec' : publishLoop sh' rest = (sh₂, ops₂, none) := by rw [hrec, herr]
      have := ih sh' ops₂ hrec'
      simp [publishLoop, ha, this]

/-- C3: publish processes items in the Review Store's order; if any item
errors, the loop aborts (items after it contribute nothing), the error is
shown via `st.error`, and the store is left exactly as it was; the store
is set to `[]` (with a success message) only when every item published. -/
theorem publish_error_handling (store : List ReviewItem) (sh : Sheets)
    (hne : store ≠ []) :
    (∀ sh₁ ops e, publishLoop sh store = (sh₁, ops, some e) →
      publishPhase store (some ()) sh =
        (store, sh₁, [Msg.error ("Error al subir: " ++ e)], ops)) ∧
    (∀ sh₁ ops, publishLoop sh store = (sh₁, ops, none) →
      publishPhase store (some ()) sh =
        ([], sh₁, [Msg.success "¡Datos cargados con éxito!"], ops)) ∧
    (∀ xs ys sh₁ ops₁ e, ∀ y : ReviewItem,
      publishLoop sh xs = (sh₁, ops₁, none) →
      publishItem sh₁ y = Except.error e →
      publishLoop sh (xs ++ y :: ys) = (sh₁, ops₁, some e)) := by
  have hni : store.isEmpty = false := by
    cases store with
    | nil => exact absurd rfl hne
    | cons a l => rfl
  refine ⟨?_, ?_,
    fun xs ys sh₁ ops₁ e y h1 h2 => publishLoop_append_abort sh xs y ys sh₁ ops₁ e h1 h2⟩
  · intro sh₁ ops e hl
    simp [publishPhase, hni, hl]
  · intro sh₁ ops hl
    simp [publishPhase, hni, hl]

/-- Witness for C3: one item targeting a missing worksheet - the store is
untouched and the error is shown. -/
theorem publish_error_handling_witness :
    publishPhase [⟨"Facturas", ["Fecha"], [["1"]], "w.pdf"⟩] (some ()) [] =
      ([⟨"Facturas", ["Fecha"], [["1"]], "w.pdf"⟩], [],
       [Msg.error "Error al subir: WorksheetNotFound: Facturas"], []) :=
  (publish_error_handling [⟨"Facturas", ["Fecha"], [["1"]], "w.pdf"⟩] []
      (by decide)).1 [] [] "WorksheetNotFound: Facturas" (by decide)

/-- C6: publishing one item writes a header row iff the target worksheet
currently has no values; the item's rows are appended after the existing
values, in stored order, with `value_input_option="USER_ENTERED"`; a
non-empty worksheet never receives the header row; a missing worksheet is
an error (never auto-created). -/
theorem publishItem_header_semantics (sh : Sheets) (item : ReviewItem) :
    (wsLookup sh item.sheet = none →
      publishItem sh item = Except.error ("WorksheetNotFound: " ++ item.sheet)) ∧
    (∀ vals, wsLookup sh item.sheet = some vals →
      publishItem sh item = Except.ok
        (wsUpdate sh item.sheet
          ((if vals.isEmpty then vals ++ [item.headers] else vals) ++ item.rows),
         (if vals.isEmpty then [⟨item.sheet, [item.headers], none⟩] else []) ++
           [⟨item.sheet, item.rows, some "USER_ENTERED"⟩])) ∧
    (∀ vals sh' ops, wsLookup sh item.sheet = some vals →
      publishItem sh item = Except.ok (sh', ops) →
      (((⟨item.sheet, [item.headers], none⟩ : AppendOp) ∈ ops ↔ vals = []) ∧
        (⟨item.sheet, item.rows, some "USER_ENTERED"⟩ : AppendOp) ∈ ops)) := by
  have key : ∀ vals, wsLookup sh item.sheet = some vals →
      publishItem sh item = Except.ok
        (wsUpdate sh item.sheet
          ((if vals.isEmpty then vals ++ [item.headers] else vals) ++ item.rows),
         (if vals.isEmpty then [⟨item.sheet, [item.headers], none⟩] else []) ++
           [⟨item.sheet, item.rows, some "USER_ENTERED"⟩]) := by
    intro vals hw
    simp [publishItem, hw]
  refine ⟨fun hw => by simp [publishItem, hw], key, ?_⟩
  intro vals sh' ops hw hok
  rw [key vals hw] at hok
  have hpair := Except.ok.inj hok
  injection hpair with hsh hops
  subst hops
  rcases vals with - | ⟨v0, vrest⟩
  · simp
  · simp

/-- Witness for C6: an empty `"Orden de compra"` worksheet gets the header
row and then the item's rows. -/
theorem publishItem_header_semantics_witness :
    publishItem [("Orden de compra", [])]
        ⟨"Orden de compra", ["Fecha"], [["x"]], "o.pdf"⟩ =
      Except.ok ([("Orden de compra", [["Fecha"], ["x"]])],
        [⟨"Orden de compra", [["Fecha"]], none⟩,
         ⟨"Orden de compra", [["x"]], some "USER_ENTERED"⟩]) := by
  have h := (publishItem_header_semantics [("Orden de compra", [])]
    ⟨"Orden de compra", ["Fecha"], [["x"]], "o.pdf"⟩).2.1 [] (by decide)
  exact h.trans rfl

/-- Counterexample for C2: with no credentials at all,
`get_gspread_client` yields `None` and the publish click is a silent
no-op - the pending item is not published, yet no message is shown. -/
theorem credentials_silent_noop_counterexample :
    get_gspread_client false false = none ∧
    publishPhase [⟨"Facturas", ["Fecha"], [["1"]], "s.pdf"⟩]
        (get_gspread_client false false) [("Facturas", [])] =
      ([⟨"Facturas", ["Fecha"], [["1"]], "s.pdf"⟩], [("Facturas", [])], [], []) :=
  ⟨rfl, rfl⟩

/-- C2 (amended): absence of `GOOGLE_API_KEY` makes extraction stop with
the user-visible error `"Falta GOOGLE_API_KEY"`; absence of publish
credentials makes `get_gspread_client` return `None` and the publish
click not proceed, but silently - nothing is written and no message is
shown. -/
theorem credentials_handling (secrets : List (String × String))
    (store : List ReviewItem) (sh : Sheets)
    (hkey : secretsGet secrets "GOOGLE_API_KEY" = none ∨
            secretsGet secrets "GOOGLE_API_KEY" = some "") :
    init_models secrets = Except.error "Falta GOOGLE_API_KEY" ∧
    get_gspread_client false false = none ∧
    publishPhase store none sh = (store, sh, [], []) := by
  refine ⟨?_, rfl, ?_⟩
  · rcases hkey with h | h <;> simp [init_models, h]
  · by_cases hs : store.isEmpty = true <;> simp [publishPhase, hs]

/-- Witness for C2 (amended): empty secrets and one pending item. -/
theorem credentials_handling_witness :
    init_models [] = Except.error "Falta GOOGLE_API_KEY" ∧
    publishPhase [⟨"Facturas", ["Fecha"], [["1"]], "t.pdf"⟩] none [] =
      ([⟨"Facturas", ["Fecha"], [["1"]], "t.pdf"⟩], [], [], []) := by
  have h := credentials_handling [] [⟨"Facturas", ["Fecha"], [["1"]], "t.pdf"⟩] []
    (Or.inl (by decide))
  exact ⟨h.1, h.2.2⟩

/-- Counterexample for C7: the literal tag `"invoice"` is not a key of
`SHEET_CONFIG` (the key is `"factura"`), so that extraction result is
skipped with a warning and produces no `ReviewItem` at all. -/
theorem invoice_tag_counterexample :
    sheetConfigGet "invoice" = none ∧
    processFile ⟨"f.pdf", Except.ok ⟨some "invoice",
        some [[("Fecha", Value.s "2024-01-01"), ("Proveedor", Value.s "ACME")]]⟩⟩ =
      (none, [Msg.warning "No se reconoció el tipo de documento en f.pdf"]) :=
  ⟨rfl, rfl⟩

/-- C7 (amended): with the registry's invoice tag `"factura"`, the result
`{document_type: "factura", rows: [{Fecha: "2024-01-01", Proveedor:
"ACME"}]}` produces one `ReviewItem` whose single row over the 10-column
invoice schema is `["2024-01-01", "ACME", "", "", "", "", "", "", "", ""]`. -/
theorem invoice_normalization :
    processFile ⟨"f.pdf", Except.ok ⟨some "factura",
        some [[("Fecha", Value.s "2024-01-01"), ("Proveedor", Value.s "ACME")]]⟩⟩ =
      (some ⟨"Facturas",
        ["Fecha", "Proveedor", "CUIT", "Nro Factura", "Producto/Servicio",
         "Cantidad", "Precio Unitario Neto", "IVA %", "Subtotal c/IVA",
         "Total Factura"],
        [["2024-01-01", "ACME", "", "", "", "", "", "", "", ""]], "f.pdf"⟩, []) := by
  rfl

end LG
